import Mathlib

/-!
Verification development for the periodic image synchronization subsystem
(`src/src/services/imageSyncService.ts`).  The service is embedded shallowly:
JavaScript objects become structures, `undefined`-able fields become `Option`,
the zod configuration schema becomes `parseConfig`, and the event-loop
execution of the async service becomes explicit state passing plus a step
relation (`Step`) whose actions are the completions the event loop can
deliver.  External effects (network, filesystem, key-value store, database,
console) are recorded in an explicit event trace.
-/

namespace ImageSync

/-- Log verbosity levels, from the zod enum `['debug','info','warn','error']`. -/
inductive LogLevel
| debug
| info
| warn
| error
deriving DecidableEq, Repr

/-- The validated configuration, image of `ConfigSchema` (imageSyncService.ts,
lines 8-18).  Field names follow the source. -/
structure Config where
  pollingInterval : Nat
  sourceEndpoint : String
  maxConcurrentDownloads : Nat
  fileTypes : List String
  storageLocation : String
  authToken : Option String
  retryAttempts : Nat
  retryDelay : Nat
  logLevel : LogLevel
deriving DecidableEq, Repr

/-- A `Partial<ImageSyncConfig>` as passed to the constructor and to
`updateConfig`: every field may be absent. -/
structure PartialConfig where
  pollingInterval : Option Nat := none
  sourceEndpoint : Option String := none
  maxConcurrentDownloads : Option Nat := none
  fileTypes : Option (List String) := none
  storageLocation : Option String := none
  authToken : Option String := none
  retryAttempts : Option Nat := none
  retryDelay : Option Nat := none
  logLevel : Option LogLevel := none
deriving DecidableEq, Repr

/-- `FileSystem.documentDirectory`, a runtime-provided directory string,
modelled as a fixed constant. -/
def documentDirectory : String := "file:///data/"

/-- Approximation of zod's `z.string().url()` check: the claims never hinge on
URL syntax, only on whether the numeric bounds pass or fail, so an absolute
http(s) scheme test stands in for the full URL grammar. -/
def isValidUrl (s : String) : Bool :=
  "http://".isPrefixOf s || "https://".isPrefixOf s

/-- `ConfigSchema.parse` (imageSyncService.ts, lines 8-18): bounds are checked
field by field, defaults apply only to absent fields, and a violated bound
fails with the field's name. -/
def parseConfig (raw : PartialConfig) : Except String Config :=
  let pollingInterval := raw.pollingInterval.getD 300000
  if pollingInterval < 1000 then .error "pollingInterval" else
  match raw.sourceEndpoint with
  | none => .error "sourceEndpoint"
  | some ep =>
    if ¬ isValidUrl ep then .error "sourceEndpoint" else
    let maxConc := raw.maxConcurrentDownloads.getD 3
    if maxConc < 1 ∨ 10 < maxConc then .error "maxConcurrentDownloads" else
    let retryAttempts := raw.retryAttempts.getD 3
    if retryAttempts < 1 then .error "retryAttempts" else
    let retryDelay := raw.retryDelay.getD 5000
    if retryDelay < 1000 then .error "retryDelay" else
    .ok { pollingInterval := pollingInterval
          sourceEndpoint := ep
          maxConcurrentDownloads := maxConc
          fileTypes := raw.fileTypes.getD ["jpg", "jpeg", "png"]
          storageLocation := raw.storageLocation.getD (documentDirectory ++ "images/")
          authToken := raw.authToken
          retryAttempts := retryAttempts
          retryDelay := retryDelay
          logLevel := raw.logLevel.getD .info }

/-- The spread merge `\x7b...this.config, ...config\x7d` performed by
`updateConfig` (line 140): every field of the current configuration is
present, fields of the partial override when supplied. -/
def mergeConfig (current : Config) (raw : PartialConfig) : PartialConfig :=
  { pollingInterval := some (raw.pollingInterval.getD current.pollingInterval)
    sourceEndpoint := some (raw.sourceEndpoint.getD current.sourceEndpoint)
    maxConcurrentDownloads := some (raw.maxConcurrentDownloads.getD current.maxConcurrentDownloads)
    fileTypes := some (raw.fileTypes.getD current.fileTypes)
    storageLocation := some (raw.storageLocation.getD current.storageLocation)
    authToken := raw.authToken <|> current.authToken
    retryAttempts := some (raw.retryAttempts.getD current.retryAttempts)
    retryDelay := some (raw.retryDelay.getD current.retryDelay)
    logLevel := some (raw.logLevel.getD current.logLevel) }

/-- One record of the JSON manifest response before mapping: at runtime any of
the fields may be `undefined`, which `Option` captures. -/
structure RawItem where
  id : Option String
  url : Option String
  timestamp : Option String
  deviceId : Option String
  fileName : Option String
deriving DecidableEq, Repr

/-- The `ImageMetadata` interface (lines 26-32).  The TypeScript types say
`string`, but `fetchNewImages` copies manifest fields without checking them,
so at runtime each field can be `undefined`; `Option` records that. -/
structure ImageMetadata where
  id : Option String
  url : Option String
  timestamp : Option String
  deviceId : Option String
  fileName : Option String
deriving DecidableEq, Repr

/-- JavaScript template-literal rendering of a possibly-undefined string. -/
def jsStr (o : Option String) : String := o.getD "undefined"

/-- Character class `[a-zA-Z0-9]` of the extension regex. -/
def isAlnumChar (c : Char) : Bool :=
  ('a' ≤ c ∧ c ≤ 'z') ∨ ('A' ≤ c ∧ c ≤ 'Z') ∨ ('0' ≤ c ∧ c ≤ '9')

/-- First match of the regex in `getFileExtension` (line 469): a dot, then a
nonempty greedy alphanumeric run, then `?`, `#`, or end of string.  Greedy
matching needs no backtracking here because any shortened run is followed by
an alphanumeric character, which the trailing class rejects. -/
def extSearch : List Char → Option (List Char)
  | [] => none
  | c :: rest =>
    if c = '.' then
      let run := rest.takeWhile isAlnumChar
      let after := rest.drop run.length
      if run.length > 0 ∧ (after = [] ∨ after.headD ' ' = '?' ∨ after.headD ' ' = '#')
      then some run
      else extSearch rest
    else extSearch rest

/-- `getFileExtension` (lines 468-471): extension of the first match,
lowercased, defaulting to `jpg`. -/
def getFileExtension (url : String) : String :=
  match extSearch url.toList with
  | some run => String.mk (run.map Char.toLower)
  | none => "jpg"

/-- Runtime errors of the embedded JavaScript. -/
inductive JsError
| typeError
| formatError
| httpError (status : Nat)
| notRunning
| genericError
deriving DecidableEq, Repr

/-- The synthesized file name `image_$\x7bitem.id\x7d.$\x7bext\x7d` (line 280).
When `item.url` is `undefined`, `url.match` inside `getFileExtension` throws a
`TypeError`, which aborts the whole `data.map`. -/
def synthName (item : RawItem) : Except JsError String :=
  match item.url with
  | none => .error .typeError
  | some u => .ok ("image_" ++ jsStr item.id ++ "." ++ getFileExtension u)

/-- The per-record mapping of `fetchNewImages` (lines 275-281).  No field is
validated or dropped; `item.fileName || ...` falls back to the synthesized
name only when `fileName` is absent or the empty string (JavaScript
falsiness). -/
def mapItem (item : RawItem) : Except JsError ImageMetadata :=
  let mkMeta (fn : String) : ImageMetadata :=
    { id := item.id, url := item.url, timestamp := item.timestamp
      deviceId := item.deviceId, fileName := some fn }
  match item.fileName with
  | some f => if f = "" then (synthName item).map mkMeta else .ok (mkMeta f)
  | none => (synthName item).map mkMeta

/-- `data.map(item => ...)` of `fetchNewImages` (line 275): records are
mapped left to right; a thrown `TypeError` aborts the whole map. -/
def mapManifest : List RawItem → Except JsError (List ImageMetadata)
  | [] => .ok []
  | r :: rest =>
    match mapItem r with
    | .error e => .error e
    | .ok m =>
      match mapManifest rest with
      | .error e => .error e
      | .ok ms => .ok (m :: ms)

/-- Externally observable effects of the service, in program order. -/
inductive Event
| kvGet (key : String)
| kvSet (key value : String)
| netFetch (url : String)
| netDownload (url path : String)
| fsMkdir (path : String)
| dbInsert (id deviceId url localPath md5 createdAt : String)
| logged (lvl : LogLevel) (msg : String)
deriving DecidableEq, Repr

/-- `logInfo` (lines 489-493): emitted only at `debug` or `info` verbosity. -/
def logInfoEv (cfg : Config) (msg : String) : List Event :=
  if cfg.logLevel = .debug ∨ cfg.logLevel = .info then [.logged .info msg] else []

/-- `logWarn` (lines 500-504): emitted at `debug`, `info` or `warn`. -/
def logWarnEv (cfg : Config) (msg : String) : List Event :=
  if cfg.logLevel = .debug ∨ cfg.logLevel = .info ∨ cfg.logLevel = .warn
  then [.logged .warn msg] else []

/-- `logError` (lines 512-514): always emitted. -/
def logErrorEv (msg : String) : List Event := [.logged .error msg]

/-- Number of warn-level console lines in a trace. -/
def warnCount (evs : List Event) : Nat :=
  (evs.filter fun e => match e with | .logged .warn _ => true | _ => false).length

/-- Possible outcomes of the manifest `fetch` call, chosen by the
environment. -/
inductive FetchResp
| netError
| aborted
| http (status : Nat) (body : Except Unit (List RawItem))
deriving Repr

/-- The query URL built by `fetchNewImages` (lines 236-247); URL-encoding of
`URLSearchParams` is elided, the parameter structure is kept. -/
def buildQuery (cfg : Config) (lastSync : Option String) : String :=
  let params :=
    (match lastSync with | some t => ["since=" ++ t] | none => []) ++
    (if cfg.fileTypes.length > 0
     then ["fileTypes=" ++ String.intercalate "," cfg.fileTypes] else [])
  cfg.sourceEndpoint ++ "?" ++ String.intercalate "&" params

/-- `fetchNewImages` (lines 234-291): issues the request; an abort is treated
as zero items; a non-2xx status or non-array body throws; an array body is
mapped record by record by `mapItem` with no per-record validation, a thrown
`TypeError` propagating out of the whole call. -/
def fetchNewImages (cfg : Config) (lastSync : Option String) (resp : FetchResp) :
    Except JsError (List ImageMetadata) × List Event :=
  let url := buildQuery cfg lastSync
  match resp with
  | .netError =>
    (.error .genericError, [.netFetch url] ++ logErrorEv "Failed to fetch new images")
  | .aborted =>
    (.ok [], [.netFetch url] ++ logInfoEv cfg "Fetch operation aborted")
  | .http status body =>
    if ¬ (200 ≤ status ∧ status < 300) then
      (.error (.httpError status), [.netFetch url] ++ logErrorEv "Failed to fetch new images")
    else
      match body with
      | .error _ =>
        (.error .formatError, [.netFetch url] ++ logErrorEv "Failed to fetch new images")
      | .ok items =>
        match mapManifest items with
        | .ok metas => (.ok metas, [.netFetch url])
        | .error e =>
          (.error e, [.netFetch url] ++ logErrorEv "Failed to fetch new images")

example : getFileExtension "https://x.test/photo.JPG?sig=1" = "jpg" := by decide
example : getFileExtension "https://x.test/photo" = "jpg" := by decide

/-- Lookup in the retry `Map` (line 45); keys are `image.id`, which at runtime
can be `undefined`, a legal `Map` key. -/
def mapLookup : List (Option String × Nat) → Option String → Option Nat
  | [], _ => none
  | (k, v) :: rest, i => if k = i then some v else mapLookup rest i

/-- Remove every binding of a key. -/
def removeCount : List (Option String × Nat) → Option String →
    List (Option String × Nat)
  | [], _ => []
  | (k, v) :: rest, i =>
    if k = i then removeCount rest i else (k, v) :: removeCount rest i

/-- `Map.set`, as a lookup-model: the old binding is dropped and the new one
recorded (JavaScript `Map` keeps insertion order, but the service only ever
looks bindings up, so order is unobservable). -/
def mapSet (m : List (Option String × Nat)) (k : Option String) (v : Nat) :
    List (Option String × Nat) :=
  removeCount m k ++ [(k, v)]

/-- `Map.delete`. -/
def mapErase (m : List (Option String × Nat)) (k : Option String) :
    List (Option String × Nat) :=
  removeCount m k

/-- The mutable fields of `ImageSyncService` (lines 39-45) plus the durable
key-value slot holding the watermark.  `activeDownloads` is
`inFlight.length`; `pendingRetries` holds items whose `setTimeout`
re-enqueue (line 317) has been scheduled but has not fired yet;
`intervalArmed` stands for `intervalId !== null` and `aborted` for the abort
signal of the current `AbortController` having been raised. -/
structure ServiceState where
  config : Config
  isRunning : Bool
  intervalArmed : Bool
  aborted : Bool
  downloadQueue : List ImageMetadata
  inFlight : List ImageMetadata
  retryMap : List (Option String × Nat)
  pendingRetries : List ImageMetadata
  lastSyncStore : Option String
deriving DecidableEq, Repr

/-- `activeDownloads`: one increment per dispatched, not yet settled
download. -/
def ServiceState.activeDownloads (s : ServiceState) : Nat := s.inFlight.length

/-- The `while` loop of `processDownloadQueue` (lines 299-303): while the
queue is nonempty and fewer than `max` downloads are active, shift the head
item and dispatch it.  Returns the remaining queue and the in-flight list. -/
def processLoop (max : Nat) : List ImageMetadata → List ImageMetadata →
    List ImageMetadata × List ImageMetadata
  | [], inFlight => ([], inFlight)
  | i :: rest, inFlight =>
    if inFlight.length < max then processLoop max rest (inFlight ++ [i])
    else (i :: rest, inFlight)

/-- One synchronous run of `processDownloadQueue` over the state. -/
def runProcess (s : ServiceState) : ServiceState :=
  let p := processLoop s.config.maxConcurrentDownloads s.downloadQueue s.inFlight
  { s with downloadQueue := p.1, inFlight := p.2 }

/-- The `.catch` handler of a failed download (lines 307-324): read the
recorded attempts (absence counts as zero); when still below
`retryAttempts`, record `attempts + 1` and schedule a delayed re-enqueue;
otherwise log a warning and drop the item.  The retry map is NOT cleared on
abandonment. -/
def handleFailure (s : ServiceState) (item : ImageMetadata) : ServiceState :=
  let attempts := (mapLookup s.retryMap item.id).getD 0
  if attempts < s.config.retryAttempts then
    { s with retryMap := mapSet s.retryMap item.id (attempts + 1)
             pendingRetries := s.pendingRetries ++ [item] }
  else s

/-- Settling of one dispatched download: on success `downloadImage` deleted
the retry entry (line 371); on failure the `.catch` handler runs; then the
`.finally` handler (lines 325-332) decrements the active count and, if the
queue is nonempty, processes it again. -/
def completeDownload (s : ServiceState) (item : ImageMetadata) (success : Bool) :
    ServiceState :=
  let s1 := if success then { s with retryMap := mapErase s.retryMap item.id }
            else handleFailure s item
  let s2 := { s1 with inFlight := s1.inFlight.erase item }
  if s2.downloadQueue.length > 0 then runProcess s2 else s2

/-- Firing of a scheduled retry `setTimeout` (lines 317-320): push the item
back onto the queue and process the queue. -/
def fireRetry (s : ServiceState) (item : ImageMetadata) : ServiceState :=
  runProcess { s with downloadQueue := s.downloadQueue ++ [item]
                      pendingRetries := s.pendingRetries.erase item }

/-- Per-cycle environment: whether a user is authenticated, the manifest
response, and the wall-clock instant `new Date().toISOString()` observed by
`updateLastSyncTimestamp`. -/
structure SyncEnv where
  userPresent : Bool
  resp : FetchResp
  now : String

/-- The durable watermark key (line 23). -/
def lastSyncKey : String := "imageSyncService:lastSync"

/-- `syncImages` (lines 194-227): check the user, read the watermark, fetch
the manifest, and when items were found push them all onto the queue, start
`processDownloadQueue` (not awaited: only its synchronous dispatch prefix
runs before the next line), and immediately persist `new Date().toISOString()`
as the watermark — while the dispatched downloads are still in flight. -/
def syncImages (s : ServiceState) (env : SyncEnv) :
    Except JsError Unit × ServiceState × List Event :=
  if ¬ env.userPresent then
    (.ok (), s, logWarnEv s.config "No authenticated user, skipping sync")
  else
    let evGet := [Event.kvGet lastSyncKey]
    let fr := fetchNewImages s.config s.lastSyncStore env.resp
    match fr.1 with
    | .error e => (.error e, s, evGet ++ fr.2 ++ logErrorEv "Sync failed")
    | .ok newImages =>
      if newImages.length = 0 then
        (.ok (), s, evGet ++ fr.2 ++ logInfoEv s.config "No new images to sync")
      else
        let s1 := runProcess { s with downloadQueue := s.downloadQueue ++ newImages }
        let s2 := { s1 with lastSyncStore := some env.now }
        (.ok (), s2,
          evGet ++ fr.2 ++ logInfoEv s.config "Found new images to download"
            ++ [Event.kvSet lastSyncKey env.now])

/-- The state reached by one `syncImages` call: unchanged when it returned
early or threw, updated otherwise. -/
def syncStep (s : ServiceState) (env : SyncEnv) : ServiceState :=
  (syncImages s env).2.1

/-- `forceSyncNow` (lines 182-188): throws before doing anything when the
service is not running. -/
def forceSyncNow (s : ServiceState) (env : SyncEnv) :
    Except JsError Unit × ServiceState × List Event :=
  if s.isRunning then syncImages s env
  else (.error .notRunning, s, [])

/-- Actions the event loop can deliver while the service waits or runs:
settling of an in-flight download, or firing of a scheduled retry timer. -/
inductive SchedAction
| complete (item : ImageMetadata) (success : Bool)
| retryTimer (item : ImageMetadata)
deriving Repr

/-- Apply one event-loop action; actions about items not actually in flight
or not scheduled are no-ops. -/
def applyAction (s : ServiceState) : SchedAction → ServiceState
  | .complete item ok =>
    if item ∈ s.inFlight then completeDownload s item ok else s
  | .retryTimer item =>
    if item ∈ s.pendingRetries then fireRetry s item else s

/-- The polling loop of `waitForActiveDownloads` (lines 430-443): resolve as
soon as the active count is observed to be zero, otherwise let the supplied
schedule of event-loop actions advance the state and poll again; `none`
means the wait (and hence `stop`) never returned. -/
def stopWait (sched : List SchedAction) (s : ServiceState) : Option ServiceState :=
  if s.inFlight.length = 0 then some s
  else
    match sched with
    | [] => none
    | a :: rest => stopWait rest (applyAction s a)

/-- `stop` (lines 101-124): a no-op when already stopped; otherwise clear the
timer, raise the abort signal, wait for active downloads to reach zero, and
only then set `isRunning` to false.  In event-loop semantics nothing runs
between the successful zero observation and the flag write, which the model
reflects by making them one step. -/
def stop (sched : List SchedAction) (s : ServiceState) : Option ServiceState :=
  if ¬ s.isRunning then some s
  else
    match stopWait sched { s with intervalArmed := false, aborted := true } with
    | none => none
    | some s2 => some { s2 with isRunning := false }

/-- The settled effect of the un-awaited `this.stop()` call inside
`updateConfig` (line 135): the synchronous prefix clears the timer and
aborts; the continuation writing `isRunning := false` completes on the
microtask queue before the new state is observable to any later turn.
(The counterexamples use it on states with no in-flight downloads, where the
wait resolves at its first poll.) -/
def stopEffect (s : ServiceState) : ServiceState :=
  { s with intervalArmed := false, aborted := true, isRunning := false }

/-- The synchronous prefix of the un-awaited `this.start()` call inside
`updateConfig` (line 151): mark running, arm a fresh abort controller and the
interval; the immediate sync it triggers is delivered as a separate
`Step.sync`. -/
def startEffect (s : ServiceState) : ServiceState :=
  { s with isRunning := true, aborted := false, intervalArmed := true }

/-- `updateConfig` (lines 130-155): record whether the service was running,
stop it if so, then parse the merged configuration.  A parse failure throws
at that point: the configuration is left untouched, but the restart on line
151 is never reached, so a previously running service stays stopped. -/
def updateConfig (s : ServiceState) (raw : PartialConfig) :
    Except String Unit × ServiceState :=
  let wasRunning := s.isRunning
  let s1 := if wasRunning then stopEffect s else s
  match parseConfig (mergeConfig s.config raw) with
  | .error e => (.error e, s1)
  | .ok cfg =>
    let s2 := { s1 with config := cfg }
    (.ok (), if wasRunning then startEffect s2 else s2)

/-- Transitions of the running engine, at the granularity of one event-loop
turn. -/
inductive Step : ServiceState → ServiceState → Prop
| complete (s : ServiceState) (item : ImageMetadata) (ok : Bool)
    (h : item ∈ s.inFlight) : Step s (completeDownload s item ok)
| retryTimer (s : ServiceState) (item : ImageMetadata)
    (h : item ∈ s.pendingRetries) : Step s (fireRetry s item)
| sync (s : ServiceState) (env : SyncEnv) : Step s (syncStep s env)

/-- Reachability through engine transitions. -/
def Reach : ServiceState → ServiceState → Prop := Relation.ReflTransGen Step

/-- Local filesystem modelled as a finite map from path to the md5 hash of
the file's content (the only content observation the service makes). -/
structure FileSys where
  files : List (String × String)
deriving DecidableEq, Repr

/-- Lookup in a path-to-hash association list. -/
def lookupPairs : List (String × String) → String → Option String
  | [], _ => none
  | (k, v) :: rest, p => if k = p then some v else lookupPairs rest p

/-- Remove every entry for a path. -/
def removeKey : List (String × String) → String → List (String × String)
  | [], _ => []
  | (k, v) :: rest, p =>
    if k = p then removeKey rest p else (k, v) :: removeKey rest p

/-- Hash stored at a path, if a file exists there. -/
def FileSys.lookup (fs : FileSys) (path : String) : Option String :=
  lookupPairs fs.files path

/-- Write (create or overwrite) the file at `path`. -/
def FileSys.write (fs : FileSys) (path md5 : String) : FileSys :=
  ⟨removeKey fs.files path ++ [(path, md5)]⟩

/-- Environment of one download attempt: the HTTP status the transfer ends
with, the md5 of the fetched content, whether a user is authenticated for
the metadata write, and whether the database insert succeeds. -/
structure DownloadEnv where
  status : Nat
  md5 : String
  userPresent : Bool
  dbOk : Bool
deriving Repr

/-- The per-device directory `$\x7bstorageLocation\x7d$\x7bdeviceId\x7d`
(line 347). -/
def deviceDir (cfg : Config) (image : ImageMetadata) : String :=
  cfg.storageLocation ++ jsStr image.deviceId

/-- The final file path `$\x7bstorageLocation\x7d$\x7bdeviceId\x7d/$\x7bfileName\x7d`
(line 343). -/
def finalPath (cfg : Config) (image : ImageMetadata) : String :=
  deviceDir cfg image ++ "/" ++ jsStr image.fileName

/-- `downloadImage` (lines 341-376) composed with `storeImageMetadata`
(lines 385-411): ensure the device directory, then call
`FileSystem.downloadAsync(image.url, filePath)` — which transfers straight
to the final path, overwriting whatever is there, with no existence or hash
check — then require status 200, then insert the metadata row.  Returns the
outcome, the resulting filesystem, and the effect trace. -/
def downloadImage (cfg : Config) (fs : FileSys) (image : ImageMetadata)
    (env : DownloadEnv) : Except JsError Unit × FileSys × List Event :=
  let ev := [Event.fsMkdir (deviceDir cfg image),
             Event.netDownload (jsStr image.url) (finalPath cfg image)]
  let fs1 := fs.write (finalPath cfg image) env.md5
  if env.status ≠ 200 then
    (.error (.httpError env.status), fs1, ev ++ logErrorEv "Failed to download image")
  else
    let ev2 := ev ++ logInfoEv cfg "Downloaded image"
    if ¬ env.userPresent then
      (.error .genericError, fs1, ev2 ++ logErrorEv "Failed to store image metadata")
    else
      let ev3 := ev2 ++ [Event.dbInsert (jsStr image.id) (jsStr image.deviceId)
        (jsStr image.url) (finalPath cfg image) env.md5 (jsStr image.timestamp)]
      if ¬ env.dbOk then
        (.error .genericError, fs1, ev3 ++ logErrorEv "Failed to store image metadata")
      else
        (.ok (), fs1, ev3)

/-- JavaScript reference semantics of the configuration object, needed for
`getConfig` (lines 161-163): the `fileTypes` field of the runtime object
holds a reference into an array heap; the spread `\x7b...this.config\x7d`
creates a fresh top-level object but copies that reference unchanged. -/
structure ConfigObj where
  pollingInterval : Nat
  sourceEndpoint : String
  maxConcurrentDownloads : Nat
  fileTypesRef : Nat
  storageLocation : String
  authToken : Option String
  retryAttempts : Nat
  retryDelay : Nat
  logLevel : LogLevel
deriving DecidableEq, Repr

/-- Array read through a heap of JavaScript arrays (addresses are indices). -/
def heapRead (heap : List (List String)) (r : Nat) : List String :=
  (heap.get? r).getD []

/-- `array.push(x)` through the heap. -/
def arrayPush (heap : List (List String)) (r : Nat) (x : String) :
    List (List String) :=
  heap.set r (heapRead heap r ++ [x])

/-- `getConfig` (lines 161-163): the spread copy, written field by field —
a new top-level object whose `fileTypes` entry is the same array
reference. -/
def getConfigObj (c : ConfigObj) : ConfigObj :=
  { pollingInterval := c.pollingInterval
    sourceEndpoint := c.sourceEndpoint
    maxConcurrentDownloads := c.maxConcurrentDownloads
    fileTypesRef := c.fileTypesRef
    storageLocation := c.storageLocation
    authToken := c.authToken
    retryAttempts := c.retryAttempts
    retryDelay := c.retryDelay
    logLevel := c.logLevel }

/-- The `fileTypes` list the service observes through its own configuration
object. -/
def observedFileTypes (heap : List (List String)) (c : ConfigObj) : List String :=
  heapRead heap c.fileTypesRef

/-- The manifest query URL the service would build (lines 236-247), reading
`fileTypes` through the heap: the behavioral observation for the
`getConfig` aliasing claim. -/
def buildQueryObj (heap : List (List String)) (c : ConfigObj)
    (lastSync : Option String) : String :=
  let fts := observedFileTypes heap c
  let params :=
    (match lastSync with | some t => ["since=" ++ t] | none => []) ++
    (if fts.length > 0 then ["fileTypes=" ++ String.intercalate "," fts] else [])
  c.sourceEndpoint ++ "?" ++ String.intercalate "&" params

/-- Decidable equality for `Except`, used to evaluate counterexamples. -/
instance decEqExcept {ε α : Type} [DecidableEq ε] [DecidableEq α] :
    DecidableEq (Except ε α) := fun x y =>
  match x, y with
  | .ok a, .ok b =>
    if h : a = b then isTrue (by rw [h])
    else isFalse (by intro hc; cases hc; exact h rfl)
  | .ok _, .error _ => isFalse (by intro hc; cases hc)
  | .error _, .ok _ => isFalse (by intro hc; cases hc)
  | .error e, .error f =>
    if h : e = f then isTrue (by rw [h])
    else isFalse (by intro hc; cases hc; exact h rfl)

/-! ### Concrete fixtures -/

/-- A validated configuration with all the zod defaults. -/
def sampleConfig : Config :=
  { pollingInterval := 300000
    sourceEndpoint := "https://example.test/manifest"
    maxConcurrentDownloads := 3
    fileTypes := ["jpg", "jpeg", "png"]
    storageLocation := "file:///data/images/"
    authToken := none
    retryAttempts := 3
    retryDelay := 5000
    logLevel := .info }

/-- A well-formed manifest record. -/
def rawItem (n ts : String) : RawItem :=
  { id := some n, url := some ("https://img.test/" ++ n ++ ".jpg")
    timestamp := some ts, deviceId := some "dev1", fileName := some (n ++ ".jpg") }

/-- The image the manifest record maps to. -/
def mkItem (n ts : String) : ImageMetadata :=
  { id := some n, url := some ("https://img.test/" ++ n ++ ".jpg")
    timestamp := some ts, deviceId := some "dev1", fileName := some (n ++ ".jpg") }

/-- A running service with nothing queued or in flight. -/
def runningState (cfg : Config) : ServiceState :=
  { config := cfg, isRunning := true, intervalArmed := true, aborted := false
    downloadQueue := [], inFlight := [], retryMap := [], pendingRetries := []
    lastSyncStore := none }

/-! ### Helper lemmas -/

theorem stopWait_drained (sched : List SchedAction) :
    ∀ s s2 : ServiceState, stopWait sched s = some s2 → s2.inFlight.length = 0 := by
  induction sched with
  | nil =>
    intro s s2 h
    rw [stopWait] at h
    by_cases h0 : s.inFlight.length = 0
    · rw [if_pos h0] at h; cases h; exact h0
    · rw [if_neg h0] at h; cases h
  | cons a rest ih =>
    intro s s2 h
    rw [stopWait] at h
    by_cases h0 : s.inFlight.length = 0
    · rw [if_pos h0] at h; cases h; exact h0
    · rw [if_neg h0] at h; exact ih (applyAction s a) s2 h

/-! ### Claim C9 -/

/-- Claim C9 (confirmed): calling `forceSyncNow` while the service is stopped
throws the not-running error, leaves the state untouched and produces no
network or filesystem event at all (the trace is empty). -/
theorem c9_forceSyncNow_stopped (s : ServiceState) (env : SyncEnv)
    (h : s.isRunning = false) :
    forceSyncNow s env = (.error .notRunning, s, []) := by
  rw [forceSyncNow, h]
  simp

/-- Witness for C9 at a concrete stopped service. -/
theorem c9_forceSyncNow_stopped_witness :
    ({ runningState sampleConfig with isRunning := false } : ServiceState).isRunning
        = false ∧
    forceSyncNow { runningState sampleConfig with isRunning := false }
        ⟨true, .http 200 (.ok []), "2026-02-03T00:00:00.000Z"⟩
      = (.error .notRunning, { runningState sampleConfig with isRunning := false }, []) :=
  ⟨rfl, c9_forceSyncNow_stopped _ _ rfl⟩

/-! ### Claim C7 -/

/-- Claim C7 (confirmed): whenever `stop` is called on a running service with
any concurrency bound between 1 and 10, every terminating run returns a state
whose active-download count is zero and whose engine state is stopped, for
every schedule of event-loop actions (including ones delivering in-flight
completions and retry timers during the wait). -/
theorem c7_stop_waits (sched : List SchedAction) (s s2 : ServiceState)
    (hrun : s.isRunning = true)
    (hc1 : 1 ≤ s.config.maxConcurrentDownloads)
    (hc10 : s.config.maxConcurrentDownloads ≤ 10)
    (h : stop sched s = some s2) :
    s2.activeDownloads = 0 ∧ s2.isRunning = false := by
  rw [stop] at h
  rw [if_neg (by simp [hrun])] at h
  rcases hw : stopWait sched { s with intervalArmed := false, aborted := true } with _ | s3
  · rw [hw] at h; cases h
  · rw [hw] at h
    cases h
    exact ⟨stopWait_drained sched _ s3 hw, rfl⟩

/-- A running service with one download in flight, used to witness C7. -/
def c7Busy : ServiceState :=
  { runningState sampleConfig with inFlight := [mkItem "w" "2026-01-07T00:00:00.000Z"] }

/-- Witness for C7: `stop` invoked with a download in flight, a schedule that
completes it, and the returned state drained and stopped. -/
theorem c7_stop_waits_witness :
    c7Busy.isRunning = true ∧ c7Busy.activeDownloads = 1 ∧
    ((stop [.complete (mkItem "w" "2026-01-07T00:00:00.000Z") true] c7Busy).getD
        c7Busy).activeDownloads = 0 ∧
    ((stop [.complete (mkItem "w" "2026-01-07T00:00:00.000Z") true] c7Busy).getD
        c7Busy).isRunning = false := by
  refine ⟨rfl, rfl, ?_⟩
  have h := c7_stop_waits [.complete (mkItem "w" "2026-01-07T00:00:00.000Z") true]
    c7Busy
    ((stop [.complete (mkItem "w" "2026-01-07T00:00:00.000Z") true] c7Busy).getD c7Busy)
    rfl (by decide) (by decide) (by decide)
  exact h

/-! ### Claim C6 -/

/-- Counterexample to C6: a running service given an invalid partial
configuration keeps its prior configuration and surfaces the error, but does
NOT remain running: `updateConfig` stops it before validating and the restart
is never reached, so it ends up stopped with its timer cleared. -/
theorem c6_counterexample :
    (runningState sampleConfig).isRunning = true ∧
    (updateConfig (runningState sampleConfig) { pollingInterval := some 500 }).1
      = .error "pollingInterval" ∧
    (updateConfig (runningState sampleConfig) { pollingInterval := some 500 }).2.config
      = sampleConfig ∧
    (updateConfig (runningState sampleConfig) { pollingInterval := some 500 }).2.isRunning
      = false ∧
    (updateConfig (runningState sampleConfig) { pollingInterval := some 500 }).2.intervalArmed
      = false := by decide

/-- Claim C6 (corrected): on validation failure `updateConfig` surfaces the
error and retains the prior configuration, but a running service has already
been stopped (timer cleared, abort raised) and is not restarted — it ends up
stopped, not running. -/
theorem c6_update_amended (s : ServiceState) (raw : PartialConfig) (e : String)
    (hrun : s.isRunning = true)
    (hv : parseConfig (mergeConfig s.config raw) = .error e) :
    updateConfig s raw = (.error e, stopEffect s) ∧
    (stopEffect s).config = s.config ∧
    (stopEffect s).isRunning = false ∧
    (stopEffect s).intervalArmed = false := by
  refine ⟨?_, rfl, rfl, rfl⟩
  rw [updateConfig, hrun]
  simp [hv]

/-- Witness for C6 amended, at the concrete invalid update of the
counterexample. -/
theorem c6_update_amended_witness :
    (runningState sampleConfig).isRunning = true ∧
    updateConfig (runningState sampleConfig) { pollingInterval := some 500 }
      = (.error "pollingInterval", stopEffect (runningState sampleConfig)) :=
  ⟨rfl, (c6_update_amended (runningState sampleConfig) { pollingInterval := some 500 }
      "pollingInterval" rfl (by decide)).1⟩

/-! ### Claim C5 -/

theorem lookupPairs_removeKey_append (l : List (String × String)) (p h : String) :
    lookupPairs (removeKey l p ++ [(p, h)]) p = some h := by
  induction l with
  | nil => simp [removeKey, lookupPairs]
  | cons q rest ih =>
    rcases q with ⟨k, v⟩
    rw [removeKey]
    by_cases hk : k = p
    · rw [if_pos hk]; exact ih
    · rw [if_neg hk]
      rw [List.cons_append, lookupPairs, if_neg hk]
      exact ih

/-- Writing a file makes its hash the stored one, whatever was there. -/
theorem FileSys.lookup_write (fs : FileSys) (p h : String) :
    (fs.write p h).lookup p = some h :=
  lookupPairs_removeKey_append fs.files p h

/-- The image used by the C5 counterexample. -/
def c5Item : ImageMetadata := mkItem "p" "2026-01-06T00:00:00.000Z"

/-- The final local path of `c5Item` under `sampleConfig`. -/
def c5Path : String := "file:///data/images/dev1/p.jpg"

/-- Counterexample to C5: with the final file already present with exactly the
hash the transfer will produce, `downloadImage` still performs the network
transfer (the trace holds the download event), and with a different
pre-existing file it silently overwrites it and reports success. -/
theorem c5_counterexample :
    FileSys.lookup ⟨[(c5Path, "h1")]⟩ c5Path = some "h1" ∧
    Event.netDownload (jsStr c5Item.url) c5Path
      ∈ (downloadImage sampleConfig ⟨[(c5Path, "h1")]⟩ c5Item ⟨200, "h1", true, true⟩).2.2 ∧
    (downloadImage sampleConfig ⟨[(c5Path, "old")]⟩ c5Item ⟨200, "new", true, true⟩).2.1.lookup
      c5Path = some "new" ∧
    (downloadImage sampleConfig ⟨[(c5Path, "old")]⟩ c5Item ⟨200, "new", true, true⟩).1
      = .ok () := by
  refine ⟨by decide, by decide, by decide, by decide⟩

/-- Claim C5 (corrected): `downloadImage` never checks for an existing file or
compares hashes — for every filesystem, image and transfer outcome it performs
the transfer to the final path and overwrites whatever file is there, leaving
the fetched content's hash on disk. -/
theorem c5_download_amended (cfg : Config) (fs : FileSys) (image : ImageMetadata)
    (env : DownloadEnv) :
    Event.netDownload (jsStr image.url) (finalPath cfg image)
      ∈ (downloadImage cfg fs image env).2.2 ∧
    (downloadImage cfg fs image env).2.1.lookup (finalPath cfg image)
      = some env.md5 := by
  constructor
  · simp only [downloadImage]
    split
    · simp
    · split
      · simp
      · split <;> simp
  · simp only [downloadImage]
    split
    · exact FileSys.lookup_write fs (finalPath cfg image) env.md5
    · split
      · exact FileSys.lookup_write fs (finalPath cfg image) env.md5
      · split <;> exact FileSys.lookup_write fs (finalPath cfg image) env.md5

/-! ### Claim C10 -/

theorem get?_set_self : ∀ (l : List (List String)) (r : Nat) (v : List String),
    r < l.length → (l.set r v).get? r = some v
  | _ :: _, 0, _, _ => rfl
  | _ :: l, r + 1, v, h => get?_set_self l r v (by simpa using h)
  | [], _, _, h => absurd h (by simp)

/-- The service configuration object used by the C10 counterexample; its
`fileTypes` reference points at cell 0 of the heap. -/
def c10Cfg : ConfigObj :=
  { pollingInterval := 300000
    sourceEndpoint := "https://example.test/manifest"
    maxConcurrentDownloads := 3
    fileTypesRef := 0
    storageLocation := "file:///data/images/"
    authToken := none
    retryAttempts := 3
    retryDelay := 5000
    logLevel := .info }

/-- Counterexample to C10: pushing onto the `fileTypes` array of the object
returned by `getConfig` mutates the configuration the service itself
observes, and changes the manifest query URL it builds — the returned value
is only a shallow copy. -/
theorem c10_counterexample :
    observedFileTypes [["jpg"]] c10Cfg = ["jpg"] ∧
    observedFileTypes (arrayPush [["jpg"]] (getConfigObj c10Cfg).fileTypesRef "gif")
      c10Cfg = ["jpg", "gif"] ∧
    buildQueryObj (arrayPush [["jpg"]] (getConfigObj c10Cfg).fileTypesRef "gif")
        c10Cfg none
      ≠ buildQueryObj [["jpg"]] c10Cfg none := by
  refine ⟨by decide, by decide, by decide⟩

/-- Claim C10 (corrected): `getConfig` returns a shallow copy — a fresh
top-level object, but its `fileTypes` entry is the same array reference as
the service's own, so a push through the returned copy is observed by the
service's configuration. -/
theorem c10_shallow_copy_amended (heap : List (List String)) (c : ConfigObj)
    (x : String) (hr : c.fileTypesRef < heap.length) :
    (getConfigObj c).fileTypesRef = c.fileTypesRef ∧
    observedFileTypes (arrayPush heap (getConfigObj c).fileTypesRef x) c
      = observedFileTypes heap c ++ [x] := by
  refine ⟨rfl, ?_⟩
  show observedFileTypes (arrayPush heap c.fileTypesRef x) c
      = observedFileTypes heap c ++ [x]
  rw [observedFileTypes, arrayPush, heapRead, get?_set_self _ _ _ hr]
  rfl

/-- Witness for C10 amended at the counterexample's heap. -/
theorem c10_shallow_copy_amended_witness :
    c10Cfg.fileTypesRef < ([["jpg"]] : List (List String)).length ∧
    observedFileTypes (arrayPush [["jpg"]] (getConfigObj c10Cfg).fileTypesRef "gif")
      c10Cfg = observedFileTypes [["jpg"]] c10Cfg ++ ["gif"] :=
  ⟨by decide, (c10_shallow_copy_amended [["jpg"]] c10Cfg "gif" (by decide)).2⟩

/-! ### Claim C4 -/

/-- Retry policy of the C4 counterexample: one retry, one concurrent slot. -/
def c4Config : Config :=
  { sampleConfig with retryAttempts := 1, maxConcurrentDownloads := 1 }

/-- Items of the C4 scenario. -/
def itemX : ImageMetadata := mkItem "x" "2026-01-10T00:00:00.000Z"

/-- Second item keeping the single download slot busy. -/
def itemY : ImageMetadata := mkItem "y" "2026-01-11T00:00:00.000Z"

/-- Cycle environment delivering the two items. -/
def c4Env : SyncEnv :=
  { userPresent := true
    resp := .http 200 (.ok [rawItem "x" "2026-01-10T00:00:00.000Z",
                            rawItem "y" "2026-01-11T00:00:00.000Z"])
    now := "2026-02-03T10:00:00.000Z" }

/-- The cycle dispatches `itemX` and queues `itemY`. -/
def c4s1 : ServiceState := syncStep (runningState c4Config) c4Env

/-- `itemX` fails: the ledger records 1 = retryAttempts and a retry is
scheduled; `itemY` is dispatched. -/
def c4s2 : ServiceState := completeDownload c4s1 itemX false

/-- The retry timer fires: `itemX` is pushed back onto the queue. -/
def c4s3 : ServiceState := fireRetry c4s2 itemX

/-- Counterexample to C4: a reachable state in which the ledger records an
attempt count equal to `retryAttempts` for `itemX` and yet `itemX` sits in
the download queue again — the code increments the counter before scheduling
the final retry, so the final re-enqueue happens with count ≥
`retryAttempts`. -/
theorem c4_counterexample :
    Reach (runningState c4Config) c4s3 ∧
    c4s3.config.retryAttempts = 1 ∧
    mapLookup c4s3.retryMap itemX.id = some 1 ∧
    itemX ∈ c4s3.downloadQueue := by
  refine ⟨?_, by decide, by decide, by decide⟩
  have h1 : Step (runningState c4Config) c4s1 := Step.sync (runningState c4Config) c4Env
  have h2 : Step c4s1 c4s2 := Step.complete c4s1 itemX false (by decide)
  have h3 : Step c4s2 c4s3 := Step.retryTimer c4s2 itemX (by decide)
  exact Relation.ReflTransGen.head h1
    (Relation.ReflTransGen.head h2 (Relation.ReflTransGen.single h3))

/-- Claim C4 (corrected): the failure handler itself honours the bound — when
the ledger already records a count at or above `retryAttempts` at the moment
a failure is handled, the item is not rescheduled and the state is untouched.
(The original claim fails only because the final allowed retry is re-enqueued
after its count was already raised to `retryAttempts`.) -/
theorem c4_no_reschedule_amended (s : ServiceState) (item : ImageMetadata)
    (h : s.config.retryAttempts ≤ (mapLookup s.retryMap item.id).getD 0) :
    handleFailure s item = s := by
  simp only [handleFailure]
  rw [if_neg (Nat.not_lt.mpr h)]

/-- State whose ledger is at the retry cap for id `x`. -/
def c4AbState : ServiceState :=
  { runningState { sampleConfig with retryAttempts := 1 } with
      retryMap := [(some "x", 1)] }

/-- Witness for C4 amended: at the cap, the handler neither reschedules nor
changes anything. -/
theorem c4_no_reschedule_amended_witness :
    c4AbState.config.retryAttempts ≤ (mapLookup c4AbState.retryMap itemX.id).getD 0 ∧
    handleFailure c4AbState itemX = c4AbState :=
  ⟨by decide, c4_no_reschedule_amended c4AbState itemX (by decide)⟩

/-! ### Claim C2 -/

/-- The identity embedding of a raw manifest record whose `fileName` is
present: `fetchNewImages` copies every field unchecked. -/
def rawToMeta (r : RawItem) : ImageMetadata :=
  { id := r.id, url := r.url, timestamp := r.timestamp, deviceId := r.deviceId
    fileName := r.fileName }

theorem mapManifest_total (items : List RawItem)
    (hfn : ∀ r ∈ items, r.fileName.getD "" ≠ "") :
    mapManifest items = .ok (items.map rawToMeta) := by
  induction items with
  | nil => rfl
  | cons r rest ih =>
    have h1 := hfn r (by simp)
    have hr : mapItem r = .ok (rawToMeta r) := by
      rcases hfname : r.fileName with _ | f
      · simp [hfname] at h1
      · have hf : f ≠ "" := by simpa [hfname] using h1
        simp [mapItem, hfname, hf, rawToMeta]
    rw [mapManifest, hr, ih fun q hq => hfn q (List.mem_cons_of_mem _ hq)]
    rfl

/-- A manifest record missing `url` (and carrying no `fileName`). -/
def badRaw : RawItem :=
  { id := some "d", url := none, timestamp := some "2026-01-04T00:00:00.000Z"
    deviceId := some "dev1", fileName := none }

/-- Three well-formed records plus one missing `url`. -/
def c2Resp : FetchResp :=
  .http 200 (.ok [rawItem "a" "2026-01-01T00:00:00.000Z",
                  rawItem "b" "2026-01-02T00:00:00.000Z",
                  rawItem "c" "2026-01-03T00:00:00.000Z", badRaw])

/-- The same response with the malformed record carrying a `fileName`. -/
def c2Resp2 : FetchResp :=
  .http 200 (.ok [rawItem "a" "2026-01-01T00:00:00.000Z",
                  rawItem "b" "2026-01-02T00:00:00.000Z",
                  rawItem "c" "2026-01-03T00:00:00.000Z",
                  { badRaw with fileName := some "d.jpg" }])

/-- Counterexample to C2: no per-item validation exists.  With 3 well-formed
records plus 1 record missing `url`, the fetch does not enqueue 3 items with
1 warning: when the malformed record has no `fileName` the synthesized name
dereferences the missing `url` and the whole fetch throws a `TypeError`
(0 items, 0 warnings); when it does have a `fileName` all 4 records are
enqueued unchecked (4 items, 0 warnings). -/
theorem c2_counterexample :
    (fetchNewImages sampleConfig none c2Resp).1 = .error .typeError ∧
    warnCount (fetchNewImages sampleConfig none c2Resp).2 = 0 ∧
    (fetchNewImages sampleConfig none c2Resp2).1
      = .ok [mkItem "a" "2026-01-01T00:00:00.000Z",
             mkItem "b" "2026-01-02T00:00:00.000Z",
             mkItem "c" "2026-01-03T00:00:00.000Z",
             { id := some "d", url := none
               timestamp := some "2026-01-04T00:00:00.000Z"
               deviceId := some "dev1", fileName := some "d.jpg" }] ∧
    warnCount (fetchNewImages sampleConfig none c2Resp2).2 = 0 := by
  refine ⟨by decide, by decide, by decide, by decide⟩

/-- Claim C2 (corrected): `fetchNewImages` performs no per-item validation
and logs no warning — every record of a well-formed array whose `fileName`
field is present (a truthy string) is enqueued verbatim, records missing
`id`, `url` or `timestamp` included; a record with no usable `fileName`
either synthesizes one from `url`, or, when `url` is missing too, aborts the
entire fetch with a `TypeError`. -/
theorem c2_no_drop_amended (cfg : Config) (ls : Option String)
    (items : List RawItem) (hfn : ∀ r ∈ items, r.fileName.getD "" ≠ "") :
    (fetchNewImages cfg ls (.http 200 (.ok items))).1 = .ok (items.map rawToMeta) ∧
    warnCount (fetchNewImages cfg ls (.http 200 (.ok items))).2 = 0 := by
  have hm := mapManifest_total items hfn
  rw [fetchNewImages]
  simp [hm, warnCount]

/-- Records missing `id`, `timestamp`, `deviceId` or `url` but carrying a
`fileName`. -/
def c2Mixed : List RawItem :=
  [{ id := none, url := some "https://img.test/a.jpg", timestamp := none
     deviceId := none, fileName := some "a.jpg" },
   { id := some "b", url := none, timestamp := some "2026-01-02T00:00:00.000Z"
     deviceId := some "dev1", fileName := some "b.jpg" }]

/-- Witness for C2 amended: both malformed records are enqueued verbatim and
no warning is logged. -/
theorem c2_no_drop_amended_witness :
    (∀ r ∈ c2Mixed, r.fileName.getD "" ≠ "") ∧
    (fetchNewImages sampleConfig none (.http 200 (.ok c2Mixed))).1
      = .ok (c2Mixed.map rawToMeta) ∧
    warnCount (fetchNewImages sampleConfig none (.http 200 (.ok c2Mixed))).2 = 0 :=
  ⟨by decide, (c2_no_drop_amended sampleConfig none c2Mixed (by decide)).1,
    (c2_no_drop_amended sampleConfig none c2Mixed (by decide)).2⟩

/-! ### Claim C8 -/

/-- The bounded-concurrency invariant: never more active downloads than the
configured cap. -/
def ConcurrencyInv (s : ServiceState) : Prop :=
  s.inFlight.length ≤ s.config.maxConcurrentDownloads

theorem processLoop_length_le (max : Nat) (q : List ImageMetadata) :
    ∀ f : List ImageMetadata, f.length ≤ max →
      ((processLoop max q f).2).length ≤ max := by
  induction q with
  | nil => intro f h; simpa [processLoop] using h
  | cons i rest ih =>
    intro f h
    rw [processLoop]
    by_cases hlt : f.length < max
    · rw [if_pos hlt]
      exact ih (f ++ [i]) (by simp; omega)
    · rw [if_neg hlt]
      exact h

theorem runProcess_inv (s : ServiceState) (h : ConcurrencyInv s) :
    ConcurrencyInv (runProcess s) :=
  processLoop_length_le s.config.maxConcurrentDownloads s.downloadQueue s.inFlight h

theorem handleFailure_inFlight (s : ServiceState) (item : ImageMetadata) :
    (handleFailure s item).inFlight = s.inFlight := by
  simp only [handleFailure]
  split <;> rfl

theorem handleFailure_config (s : ServiceState) (item : ImageMetadata) :
    (handleFailure s item).config = s.config := by
  simp only [handleFailure]
  split <;> rfl

theorem dispatchAfter_inv (s2 : ServiceState) (h : ConcurrencyInv s2) :
    ConcurrencyInv (if s2.downloadQueue.length > 0 then runProcess s2 else s2) := by
  split
  · exact runProcess_inv s2 h
  · exact h

theorem completeDownload_inv (s : ServiceState) (item : ImageMetadata) (ok : Bool)
    (h : ConcurrencyInv s) : ConcurrencyInv (completeDownload s item ok) := by
  have hbase : ConcurrencyInv
      (if ok then { s with retryMap := mapErase s.retryMap item.id }
       else handleFailure s item) := by
    cases ok with
    | true => exact h
    | false =>
      have hh : ConcurrencyInv (handleFailure s item) := by
        rw [ConcurrencyInv, handleFailure_inFlight, handleFailure_config]
        exact h
      exact hh
  have herase : ∀ t : ServiceState, ConcurrencyInv t →
      ConcurrencyInv { t with inFlight := t.inFlight.erase item } := by
    intro t ht
    rw [ConcurrencyInv]
    exact le_trans (List.Sublist.length_le (List.erase_sublist _ _)) ht
  exact dispatchAfter_inv _ (herase _ hbase)

theorem fireRetry_inv (s : ServiceState) (item : ImageMetadata)
    (h : ConcurrencyInv s) : ConcurrencyInv (fireRetry s item) :=
  runProcess_inv _ h

theorem syncStep_inv (s : ServiceState) (env : SyncEnv) (h : ConcurrencyInv s) :
    ConcurrencyInv (syncStep s env) := by
  rw [syncStep, syncImages]
  by_cases hu : env.userPresent = true
  · rw [if_neg (by simp [hu])]
    rcases hfr : (fetchNewImages s.config s.lastSyncStore env.resp).1 with e | newImages
    · simp only [hfr]
      exact h
    · simp only [hfr]
      by_cases hz : newImages.length = 0
      · rw [if_pos hz]
        exact h
      · rw [if_neg hz]
        exact runProcess_inv _ h
  · rw [if_pos (by simp [hu])]
    exact h

theorem step_inv (s t : ServiceState) (hst : Step s t) (h : ConcurrencyInv s) :
    ConcurrencyInv t := by
  cases hst with
  | complete item ok hm => exact completeDownload_inv s item ok h
  | retryTimer item hm => exact fireRetry_inv s item h
  | sync env => exact syncStep_inv s env h

/-- Claim C8 (confirmed): starting from any state with no active downloads,
every state the engine can reach through download completions, retry-timer
firings and sync cycles keeps the active-download count at or below
`maxConcurrentDownloads` — the dispatch loop only starts a download under the
guard `activeDownloads < maxConcurrentDownloads`. -/
theorem c8_bounded_concurrency (s0 s : ServiceState) (h0 : s0.inFlight = [])
    (hr : Reach s0 s) :
    s.activeDownloads ≤ s.config.maxConcurrentDownloads := by
  have hr2 : Relation.ReflTransGen Step s0 s := hr
  clear hr
  have hinv : ConcurrencyInv s := by
    induction hr2 with
    | refl =>
      rw [ConcurrencyInv, h0]
      exact Nat.zero_le _
    | tail hr3 hstep ih => exact step_inv _ _ hstep ih
  exact hinv

/-- Concurrency cap of 1 for the C8 witness. -/
def c8Config : Config := { sampleConfig with maxConcurrentDownloads := 1 }

/-- A cycle delivering five items at once. -/
def c8Env : SyncEnv :=
  { userPresent := true
    resp := .http 200 (.ok [rawItem "q1" "2026-01-01T00:00:00.000Z",
                            rawItem "q2" "2026-01-01T01:00:00.000Z",
                            rawItem "q3" "2026-01-01T02:00:00.000Z",
                            rawItem "q4" "2026-01-01T03:00:00.000Z",
                            rawItem "q5" "2026-01-01T04:00:00.000Z"])
    now := "2026-02-03T11:00:00.000Z" }

/-- Witness for C8: five items with a cap of 1 — exactly one download is
dispatched, four stay queued, and the invariant instance follows from the
theorem. -/
theorem c8_bounded_concurrency_witness :
    (runningState c8Config).inFlight = [] ∧
    (syncStep (runningState c8Config) c8Env).activeDownloads
      ≤ (syncStep (runningState c8Config) c8Env).config.maxConcurrentDownloads ∧
    (syncStep (runningState c8Config) c8Env).activeDownloads = 1 ∧
    (syncStep (runningState c8Config) c8Env).downloadQueue.length = 4 :=
  ⟨rfl,
   c8_bounded_concurrency (runningState c8Config) _ rfl
     (Relation.ReflTransGen.single (Step.sync (runningState c8Config) c8Env)),
   by decide, by decide⟩

/-! ### Claim C1 -/

theorem processLoop_length_ge (max : Nat) (q : List ImageMetadata) :
    ∀ f : List ImageMetadata, f.length ≤ ((processLoop max q f).2).length := by
  induction q with
  | nil => intro f; simp [processLoop]
  | cons i rest ih =>
    intro f
    rw [processLoop]
    by_cases hlt : f.length < max
    · rw [if_pos hlt]
      calc f.length ≤ (f ++ [i]).length := by simp
        _ ≤ _ := ih (f ++ [i])
    · rw [if_neg hlt]

theorem processLoop_dispatches (max : Nat) (q : List ImageMetadata)
    (hmax : 1 ≤ max) (hq : q ≠ []) :
    1 ≤ ((processLoop max q []).2).length := by
  match q, hq with
  | i :: rest, _ =>
    rw [processLoop, if_pos (by simpa using hmax)]
    have h2 := processLoop_length_ge max rest ([] ++ [i])
    simpa using h2

theorem syncImages_state (s : ServiceState) (env : SyncEnv)
    (items : List ImageMetadata) (hu : env.userPresent = true)
    (hfetch : (fetchNewImages s.config s.lastSyncStore env.resp).1 = .ok items)
    (hne : items ≠ []) :
    syncStep s env =
      { runProcess { s with downloadQueue := s.downloadQueue ++ items } with
        lastSyncStore := some env.now } := by
  have hlen : ¬ items.length = 0 := by
    intro hl
    exact hne (List.length_eq_zero.mp hl)
  rw [syncStep, syncImages]
  rw [if_neg (by simp [hu])]
  simp only [hfetch]
  rw [if_neg hlen]

theorem syncImages_trace_kvSet (s : ServiceState) (env : SyncEnv)
    (items : List ImageMetadata) (hu : env.userPresent = true)
    (hfetch : (fetchNewImages s.config s.lastSyncStore env.resp).1 = .ok items)
    (hne : items ≠ []) :
    Event.kvSet lastSyncKey env.now ∈ (syncImages s env).2.2 := by
  have hlen : ¬ items.length = 0 := by
    intro hl
    exact hne (List.length_eq_zero.mp hl)
  rw [syncImages]
  rw [if_neg (by simp [hu])]
  simp only [hfetch]
  rw [if_neg hlen]
  simp

/-- Claim C1 (corrected): when a cycle finds at least one item, `syncImages`
persists the watermark immediately after the synchronous dispatch of the
first downloads — while at least one download is still in flight, i.e.
before the queue is drained — and the value persisted is the wall-clock
`new Date().toISOString()` of the moment of the write, not the maximum item
timestamp. -/
theorem c1_watermark_amended (s : ServiceState) (env : SyncEnv)
    (items : List ImageMetadata) (hu : env.userPresent = true)
    (hfetch : (fetchNewImages s.config s.lastSyncStore env.resp).1 = .ok items)
    (hne : items ≠ []) (hq : s.downloadQueue = []) (hf : s.inFlight = [])
    (hmax : 1 ≤ s.config.maxConcurrentDownloads) :
    (syncStep s env).lastSyncStore = some env.now ∧
    Event.kvSet lastSyncKey env.now ∈ (syncImages s env).2.2 ∧
    1 ≤ (syncStep s env).activeDownloads := by
  have hstate := syncImages_state s env items hu hfetch hne
  refine ⟨?_, syncImages_trace_kvSet s env items hu hfetch hne, ?_⟩
  · rw [hstate]
  · rw [hstate]
    show 1 ≤ (processLoop s.config.maxConcurrentDownloads
      (s.downloadQueue ++ items) s.inFlight).2.length
    rw [hq, hf, List.nil_append]
    exact processLoop_dispatches _ _ hmax hne

/-- Cycle environment for the C1 scenario: two items whose latest capture
timestamp is 2026-01-02, observed at wall-clock 2026-02-03. -/
def c1Env : SyncEnv :=
  { userPresent := true
    resp := .http 200 (.ok [rawItem "a" "2026-01-01T00:00:00.000Z",
                            rawItem "b" "2026-01-02T00:00:00.000Z"])
    now := "2026-02-03T09:00:00.000Z" }

/-- Counterexample to C1: after `syncImages` returns, the persisted watermark
is the wall-clock time of the cycle, not the maximum item timestamp
2026-01-02, and both downloads are still active — the write happened before
the download queue was drained. -/
theorem c1_counterexample :
    (syncStep (runningState sampleConfig) c1Env).lastSyncStore
      = some "2026-02-03T09:00:00.000Z" ∧
    (syncStep (runningState sampleConfig) c1Env).lastSyncStore
      ≠ some "2026-01-02T00:00:00.000Z" ∧
    (syncStep (runningState sampleConfig) c1Env).activeDownloads = 2 ∧
    Event.kvSet lastSyncKey "2026-02-03T09:00:00.000Z"
      ∈ (syncImages (runningState sampleConfig) c1Env).2.2 := by
  refine ⟨by decide, by decide, by decide, by decide⟩

/-- Witness for C1 amended at the concrete two-item cycle. -/
theorem c1_watermark_amended_witness :
    c1Env.userPresent = true ∧
    (fetchNewImages sampleConfig none c1Env.resp).1
      = .ok [mkItem "a" "2026-01-01T00:00:00.000Z",
             mkItem "b" "2026-01-02T00:00:00.000Z"] ∧
    (syncStep (runningState sampleConfig) c1Env).lastSyncStore = some c1Env.now ∧
    1 ≤ (syncStep (runningState sampleConfig) c1Env).activeDownloads := by
  have h := c1_watermark_amended (runningState sampleConfig) c1Env
    [mkItem "a" "2026-01-01T00:00:00.000Z", mkItem "b" "2026-01-02T00:00:00.000Z"]
    rfl (by decide) (by decide) rfl rfl (by decide)
  exact ⟨rfl, by decide, h.1, h.2.2⟩

/-! ### Claim C3 -/

/-- Retry policy of the C3 scenario: `retryAttempts = 2`,
`retryDelay = 1000`. -/
def c3Config : Config := { sampleConfig with retryAttempts := 2, retryDelay := 1000 }

/-- A running engine that has just dispatched `item` and nothing else. -/
def c3Start (item : ImageMetadata) : ServiceState :=
  { runningState c3Config with inFlight := [item] }

/-- State after the first download failure of `item`. -/
def c3AfterFail1 (item : ImageMetadata) : ServiceState :=
  completeDownload (c3Start item) item false

/-- State after the first retry timer fires and redispatches `item`. -/
def c3AfterRetry1 (item : ImageMetadata) : ServiceState :=
  fireRetry (c3AfterFail1 item) item

/-- State after the second consecutive failure of `item`. -/
def c3AfterFail2 (item : ImageMetadata) : ServiceState :=
  completeDownload (c3AfterRetry1 item) item false

/-- State after the second retry timer fires. -/
def c3AfterRetry2 (item : ImageMetadata) : ServiceState :=
  fireRetry (c3AfterFail2 item) item

/-- State after the third consecutive failure of `item`. -/
def c3AfterFail3 (item : ImageMetadata) : ServiceState :=
  completeDownload (c3AfterRetry2 item) item false

/-- The failing item of the concrete C3 run. -/
def itemF : ImageMetadata := mkItem "f" "2026-01-05T00:00:00.000Z"

/-- Counterexample to C3: with `retryAttempts = 2`, after the item's second
consecutive failure it is NOT abandoned — a further retry is scheduled — and
after the third failure, when it finally is abandoned, the retry ledger still
contains its id with count 2 (entries are deleted only on success).  The whole
run is reachable through engine transitions. -/
theorem c3_counterexample :
    Reach (c3Start itemF) (c3AfterFail3 itemF) ∧
    itemF ∈ (c3AfterFail2 itemF).pendingRetries ∧
    mapLookup (c3AfterFail3 itemF).retryMap itemF.id = some 2 ∧
    (c3AfterFail3 itemF).pendingRetries = [] ∧
    (c3AfterFail3 itemF).downloadQueue = [] ∧
    (c3AfterFail3 itemF).inFlight = [] := by
  refine ⟨?_, by decide, by decide, by decide, by decide, by decide⟩
  have h1 : Step (c3Start itemF) (c3AfterFail1 itemF) :=
    Step.complete (c3Start itemF) itemF false (by decide)
  have h2 : Step (c3AfterFail1 itemF) (c3AfterRetry1 itemF) :=
    Step.retryTimer (c3AfterFail1 itemF) itemF (by decide)
  have h3 : Step (c3AfterRetry1 itemF) (c3AfterFail2 itemF) :=
    Step.complete (c3AfterRetry1 itemF) itemF false (by decide)
  have h4 : Step (c3AfterFail2 itemF) (c3AfterRetry2 itemF) :=
    Step.retryTimer (c3AfterFail2 itemF) itemF (by decide)
  have h5 : Step (c3AfterRetry2 itemF) (c3AfterFail3 itemF) :=
    Step.complete (c3AfterRetry2 itemF) itemF false (by decide)
  exact Relation.ReflTransGen.head h1 (Relation.ReflTransGen.head h2
    (Relation.ReflTransGen.head h3 (Relation.ReflTransGen.head h4
      (Relation.ReflTransGen.single h5))))

set_option maxHeartbeats 2000000 in
/-- Claim C3 (corrected): with `retryAttempts = 2`, an item that fails
consecutively is rescheduled after its first AND second failures (the ledger
counting scheduled retries, not total attempts) and abandoned only after the
third; after abandonment the retry ledger still contains its id with count 2,
because entries are removed on success only. -/
theorem c3_retry_amended (item : ImageMetadata) :
    (c3AfterFail1 item).pendingRetries = [item] ∧
    mapLookup (c3AfterFail1 item).retryMap item.id = some 1 ∧
    (c3AfterFail2 item).pendingRetries = [item] ∧
    mapLookup (c3AfterFail2 item).retryMap item.id = some 2 ∧
    (c3AfterFail3 item).pendingRetries = [] ∧
    mapLookup (c3AfterFail3 item).retryMap item.id = some 2 ∧
    (c3AfterFail3 item).downloadQueue = [] ∧
    (c3AfterFail3 item).inFlight = [] := by
  refine ⟨?_, ?_, ?_, ?_, ?_, ?_, ?_, ?_⟩ <;>
    simp [c3AfterFail1, c3AfterFail2, c3AfterFail3, c3AfterRetry1, c3AfterRetry2,
      c3Start, completeDownload, fireRetry, handleFailure, runProcess, processLoop,
      mapLookup, mapSet, mapErase, removeCount, c3Config, sampleConfig, runningState,
      List.erase_cons_head]

end ImageSync
